import Mathlib

/-!
Shallow embedding of the 3D wireframe renderer (`src/main.py`).

The embedded core is the geometry / viewpoint / projection / renderer
pipeline:

* `Vector3`      — `pygame.math.Vector3` as three real components.
* `pydiv`        — Python `/` on floats: raises `ZeroDivisionError` when the
                   divisor is zero, hence `Except`.
* `pyGet`        — Python list indexing `xs[i]` with an `int` index:
                   supports negative indices counting from the end, raises
                   `IndexError` out of range.
* `Polygon.init` / `cubeVertices` / `Cube.init` — `Polygon.__init__` and
                   `Cube.__init__` (lines 105-145).
* `ViewPoint.*`  — `ViewPoint.__init__`, `ViewPoint.update` (movement keys)
                   and `ViewPoint.adj_fov` (lines 66-93).
* `projectVertex` — the per-vertex projection body of `RenderEngine.render`
                   (lines 161-171) together with `Window.to_pygame_coords`
                   (lines 29-34).
* `render`       — `RenderEngine.render` (lines 153-174): accumulates the
                   projected points of all polygons in one list and, after
                   each appended point, draws the line segments between
                   consecutive points of the accumulated list.

Machine floats are modelled as real numbers; Python exceptions as an
`Except` error value that propagates (the source has no handler).
-/

namespace Renderer3D

/-- A 3D vector (`pygame.math.Vector3`): three real components. -/
structure Vector3 where
  x : ℝ
  y : ℝ
  z : ℝ

/-- The Python exceptions the embedded code can raise. -/
inductive PyError where
  | zeroDivisionError
  | indexError
deriving DecidableEq, Repr

/-- Python float division `a / b`: raises `ZeroDivisionError` when `b == 0`. -/
noncomputable def pydiv (a b : ℝ) : Except PyError ℝ :=
  if b = 0 then .error .zeroDivisionError else .ok (a / b)

/-- `math.degrees`: radians to degrees. -/
noncomputable def degrees (x : ℝ) : ℝ := x * 180 / Real.pi

/-- `Window.to_pygame_coords` (src/main.py lines 29-34), with the window
dimensions `W × H` passed explicitly: `x' = x + W/2`, `y' = -(y - H/2)`. -/
noncomputable def to_pygame_coords (W H x y : ℝ) : ℝ × ℝ := (x + W / 2, -(y - H / 2))

/-- Python list indexing `xs[i]` for an `int` index `i`: indices `0 ≤ i < len`
address from the front, `-len ≤ i < 0` from the end, anything else raises
`IndexError`. -/
def pyGet {α : Type} (xs : List α) (i : ℤ) : Except PyError α :=
  if h : 0 ≤ i ∧ i < (xs.length : ℤ) then
    .ok (xs.get ⟨i.toNat, by omega⟩)
  else if h' : -(xs.length : ℤ) ≤ i ∧ i < 0 then
    .ok (xs.get ⟨(i + (xs.length : ℤ)).toNat, by omega⟩)
  else .error .indexError

/-- A polygon: the vertex list stored verbatim plus `_pos = vertices[anchor]`
(src/main.py lines 105-110). -/
structure Polygon where
  vertices : List Vector3
  pos : Vector3

/-- `Polygon.__init__(vertices, anchor)`: stores the vertices and sets
`_pos = vertices[anchor]`; the indexing can raise `IndexError`. -/
def Polygon.init (vertices : List Vector3) (anchor : ℤ) : Except PyError Polygon :=
  (pyGet vertices anchor).map (fun v => ⟨vertices, v⟩)

/-- The 8-element vertex list built by `Cube.__init__` (src/main.py lines
129-143), in source order: z-offset innermost, then y, then x. -/
def cubeVertices (pos : Vector3) (side_length : ℝ) : List Vector3 :=
  [⟨pos.x, pos.y, pos.z⟩,
   ⟨pos.x, pos.y, pos.z + side_length⟩,
   ⟨pos.x, pos.y + side_length, pos.z⟩,
   ⟨pos.x, pos.y + side_length, pos.z + side_length⟩,
   ⟨pos.x + side_length, pos.y, pos.z⟩,
   ⟨pos.x + side_length, pos.y, pos.z + side_length⟩,
   ⟨pos.x + side_length, pos.y + side_length, pos.z⟩,
   ⟨pos.x + side_length, pos.y + side_length, pos.z + side_length⟩]

/-- `Cube.__init__(anchor, pos, side_length)` (src/main.py lines 122-145):
builds the 8 vertices from `pos` and `side_length` with no validation of
`side_length`, then calls `Polygon.__init__(vertices, anchor)`, which
overwrites `_pos` with `vertices[anchor]`. -/
def Cube.init (anchor : ℤ) (pos : Vector3) (side_length : ℝ) : Except PyError Polygon :=
  Polygon.init (cubeVertices pos side_length) anchor

/-- The viewpoint state: camera position and field of view in degrees.
`_MOVESPEED` and `_ZOOMSPEED` are the constants 100 (src/main.py lines
71-72). -/
structure ViewPoint where
  pos : Vector3
  fov : ℝ

/-- `ViewPoint._MOVESPEED` (src/main.py line 71). -/
def MOVESPEED : ℝ := 100

/-- `ViewPoint._ZOOMSPEED` (src/main.py line 72). -/
def ZOOMSPEED : ℝ := 100

/-- `ViewPoint.__init__(window, pos, fov)` (src/main.py lines 68-75): stores
`pos` and `fov` verbatim; no clamping is applied to `fov`. -/
def ViewPoint.init (pos : Vector3) (fov : ℝ) : ViewPoint := ⟨pos, fov⟩

/-- The six movement keys polled by `ViewPoint.update`: `w`/`s` (forward /
back), `d`/`a` (right / left), `space`/`lshift` (up / down). -/
structure Keys where
  w : Bool
  s : Bool
  a : Bool
  d : Bool
  space : Bool
  lshift : Bool

/-- A pressed key reads as `1`, a released one as `0` (Python bool
arithmetic in `keys_pressed[...] - keys_pressed[...]`). -/
def keyInt (b : Bool) : ℝ := if b then 1 else 0

/-- `ViewPoint.update` (src/main.py lines 77-87): per-axis position update
`pos.axis += (plusKey - minusKey) * MOVESPEED * dt`. -/
def ViewPoint.update (vp : ViewPoint) (keys : Keys) (dt : ℝ) : ViewPoint :=
  { vp with pos :=
      ⟨vp.pos.x + (keyInt keys.d - keyInt keys.a) * MOVESPEED * dt,
       vp.pos.y + (keyInt keys.space - keyInt keys.lshift) * MOVESPEED * dt,
       vp.pos.z + (keyInt keys.w - keyInt keys.s) * MOVESPEED * dt⟩ }

/-- `ViewPoint.adj_fov` (src/main.py lines 89-93):
`fov -= ZOOMSPEED * scrollwheel * dt`, then `if fov < 1: fov = 1` and
`if fov > 180: fov = 180`, in that order. -/
noncomputable def ViewPoint.adj_fov (vp : ViewPoint) (scrollwheel : ℤ) (dt : ℝ) : ViewPoint :=
  let f0 := vp.fov - ZOOMSPEED * (scrollwheel : ℝ) * dt
  let f1 := if f0 < 1 then 1 else f0
  let f2 := if f1 > 180 then 180 else f1
  { vp with fov := f2 }

/-- The per-vertex projection body of `RenderEngine.render` (src/main.py
lines 161-171): offsets from the viewpoint, `degrees(atan(diff/z_diff))`
angles, division by HALF the fov (`fov = viewpoint.fov / 2`, line 168),
scaling by half the screen size, then `Window.to_pygame_coords`. Every
Python `/` with a possibly-zero divisor is `pydiv`. -/
noncomputable def projectVertex (v p : Vector3) (fovDeg W H : ℝ) :
    Except PyError (ℝ × ℝ) := do
  let x_diff := v.x - p.x
  let y_diff := v.y - p.y
  let z_diff := v.z - p.z
  let xr ← pydiv x_diff z_diff
  let x_angle := degrees (Real.arctan xr)
  let yr ← pydiv y_diff z_diff
  let y_angle := degrees (Real.arctan yr)
  let fov := fovDeg / 2
  let xq ← pydiv x_angle fov
  let x := xq * (W / 2)
  let yq ← pydiv y_angle fov
  let y := yq * (H / 2)
  pure (to_pygame_coords W H x y)

/-- The projection formula exactly as the spec states it (spec §4.3), for
refinement comparison with `projectVertex`: the angle ratio divides by the
FULL fov, and the result is already in screen coordinates. -/
noncomputable def projectSpecFormula (v p : Vector3) (fovDeg W H : ℝ) : ℝ × ℝ :=
  ((degrees (Real.arctan ((v.x - p.x) / (v.z - p.z))) / fovDeg) * (W / 2) + W / 2,
   -(degrees (Real.arctan ((v.y - p.y) / (v.z - p.z))) / fovDeg) * (H / 2) + H / 2)

/-- The line segments `pygame.draw.line` receives for an accumulated
coordinate list: one segment per consecutive pair (`coords[i]` to
`coords[i+1]`, src/main.py lines 173-174). -/
def consecSegments (coords : List (ℝ × ℝ)) : List ((ℝ × ℝ) × (ℝ × ℝ)) :=
  coords.zip coords.tail

/-- The loop of `RenderEngine.render` over the flattened vertex sequence:
project each vertex, append it to the shared `coords` list, then issue the
draw calls for all consecutive pairs of the accumulated list. A projection
exception aborts the loop and propagates. -/
noncomputable def renderLoop (vp : ViewPoint) (W H : ℝ) :
    List Vector3 → List (ℝ × ℝ) → List ((ℝ × ℝ) × (ℝ × ℝ)) →
    Except PyError (List ((ℝ × ℝ) × (ℝ × ℝ)))
  | [], _, draws => .ok draws
  | v :: rest, coords, draws =>
    match projectVertex v vp.pos vp.fov W H with
    | .error e => .error e
    | .ok pt => renderLoop vp W H rest (coords ++ [pt])
        (draws ++ consecSegments (coords ++ [pt]))

/-- `RenderEngine.render` (src/main.py lines 153-174): iterates over the
vertices of all polygons in order with ONE shared `coords` list, and returns
the full sequence of issued line-draw segments. An exception in any
projection propagates (the source has no handler). -/
noncomputable def render (polygons : List Polygon) (vp : ViewPoint) (W H : ℝ) :
    Except PyError (List ((ℝ × ℝ) × (ℝ × ℝ))) :=
  renderLoop vp W H (polygons.map Polygon.vertices).flatten [] []

/-! ## Helper lemmas -/

/-- A single `adj_fov` call always lands the fov in `[1, 180]`, whatever the
previous fov, scroll amount and frame delta were. -/
theorem adj_fov_mem (vp : ViewPoint) (s : ℤ) (dt : ℝ) :
    1 ≤ (vp.adj_fov s dt).fov ∧ (vp.adj_fov s dt).fov ≤ 180 := by
  simp only [ViewPoint.adj_fov]
  split_ifs with h1 h2 h3 <;> constructor <;> norm_num <;> linarith

/-- After any nonempty sequence of `adj_fov` calls the fov is in `[1, 180]`. -/
theorem foldl_adj_fov_mem :
    ∀ (calls : List (ℤ × ℝ)) (vp : ViewPoint), calls ≠ [] →
      1 ≤ (calls.foldl (fun v c => v.adj_fov c.1 c.2) vp).fov ∧
      (calls.foldl (fun v c => v.adj_fov c.1 c.2) vp).fov ≤ 180
  | [], _, h => absurd rfl h
  | [c], vp, _ => by simpa using adj_fov_mem vp c.1 c.2
  | c :: c2 :: r2, vp, _ => by
      simpa using foldl_adj_fov_mem (c2 :: r2) (vp.adj_fov c.1 c.2) (by simp)

/-! ## Claims -/

/-- C7: for every anchor position `(ax, ay, az)` and positive side length
`L`, the cube vertex list has exactly 8 vertices, enumerated in the fixed
order with the z-offset innermost, y next, x outermost; its coordinate set
is exactly `{ax, ax+L} × {ay, ay+L} × {az, az+L}`, with no duplicates. -/
theorem cube_vertex_set (ax ay az L : ℝ) (hL : 0 < L) :
    (cubeVertices ⟨ax, ay, az⟩ L).length = 8 ∧
    cubeVertices ⟨ax, ay, az⟩ L =
      [⟨ax, ay, az⟩, ⟨ax, ay, az + L⟩, ⟨ax, ay + L, az⟩, ⟨ax, ay + L, az + L⟩,
       ⟨ax + L, ay, az⟩, ⟨ax + L, ay, az + L⟩, ⟨ax + L, ay + L, az⟩,
       ⟨ax + L, ay + L, az + L⟩] ∧
    (∀ v : Vector3, v ∈ cubeVertices ⟨ax, ay, az⟩ L ↔
      (v.x = ax ∨ v.x = ax + L) ∧ (v.y = ay ∨ v.y = ay + L) ∧
      (v.z = az ∨ v.z = az + L)) ∧
    (cubeVertices ⟨ax, ay, az⟩ L).Nodup := by
  have hne : L ≠ 0 := ne_of_gt hL
  refine ⟨rfl, rfl, ?_, ?_⟩
  · intro v
    cases v with
    | mk vx vy vz =>
      simp only [cubeVertices, List.mem_cons, List.not_mem_nil, or_false,
        Vector3.mk.injEq]
      constructor
      · rintro (⟨hx, hy, hz⟩ | ⟨hx, hy, hz⟩ | ⟨hx, hy, hz⟩ | ⟨hx, hy, hz⟩ |
          ⟨hx, hy, hz⟩ | ⟨hx, hy, hz⟩ | ⟨hx, hy, hz⟩ | ⟨hx, hy, hz⟩) <;>
          subst hx <;> subst hy <;> subst hz <;> simp
      · rintro ⟨hx | hx, hy | hy, hz | hz⟩ <;> subst hx <;> subst hy <;>
          subst hz <;> simp
  · simp [cubeVertices, List.nodup_cons, Vector3.mk.injEq, self_eq_add_right,
      add_right_eq_self, self_eq_add_left, add_left_eq_self, hne]

/-- C7 witness: the instance `Cube(anchor=(0,0,0), sideLength=10)`. -/
theorem cube_vertex_set_witness :
    (0 : ℝ) < 10 ∧
    ((cubeVertices ⟨0, 0, 0⟩ 10).length = 8 ∧ (cubeVertices ⟨0, 0, 0⟩ 10).Nodup) := by
  have h := cube_vertex_set 0 0 0 10 (by norm_num)
  exact ⟨by norm_num, h.1, h.2.2.2⟩

/-- C8: the per-frame move update adds or subtracts `MOVESPEED * dt`
independently per axis (right/left on x, up/down on y, forward/back on z),
and opposing directions pressed together cancel to zero net movement on
that axis. -/
theorem update_moves_axes_independently (vp : ViewPoint) (keys : Keys) (dt : ℝ)
    (hdt : 0 < dt) :
    ((keys.d = true → keys.a = false →
        (vp.update keys dt).pos.x = vp.pos.x + MOVESPEED * dt) ∧
     (keys.a = true → keys.d = false →
        (vp.update keys dt).pos.x = vp.pos.x - MOVESPEED * dt) ∧
     (keys.d = keys.a → (vp.update keys dt).pos.x = vp.pos.x)) ∧
    ((keys.space = true → keys.lshift = false →
        (vp.update keys dt).pos.y = vp.pos.y + MOVESPEED * dt) ∧
     (keys.lshift = true → keys.space = false →
        (vp.update keys dt).pos.y = vp.pos.y - MOVESPEED * dt) ∧
     (keys.space = keys.lshift → (vp.update keys dt).pos.y = vp.pos.y)) ∧
    ((keys.w = true → keys.s = false →
        (vp.update keys dt).pos.z = vp.pos.z + MOVESPEED * dt) ∧
     (keys.s = true → keys.w = false →
        (vp.update keys dt).pos.z = vp.pos.z - MOVESPEED * dt) ∧
     (keys.w = keys.s → (vp.update keys dt).pos.z = vp.pos.z)) := by
  obtain ⟨w, s, a, d, sp, ls⟩ := keys
  refine ⟨⟨?_, ?_, ?_⟩, ⟨?_, ?_, ?_⟩, ⟨?_, ?_, ?_⟩⟩ <;> intros <;>
    simp_all [ViewPoint.update, keyInt, MOVESPEED] <;> ring

/-- C8 witness: `move(elapsedSeconds = 1, only forward)` at speed 100 on a
viewpoint at the origin moves z by exactly `MOVESPEED * 1` and leaves x and
y unchanged. -/
theorem update_moves_axes_independently_witness :
    (0 : ℝ) < 1 ∧
    ((ViewPoint.mk ⟨0, 0, 0⟩ 90).update ⟨true, false, false, false, false, false⟩ 1).pos.z
        = (ViewPoint.mk ⟨0, 0, 0⟩ 90).pos.z + MOVESPEED * 1 ∧
    ((ViewPoint.mk ⟨0, 0, 0⟩ 90).update ⟨true, false, false, false, false, false⟩ 1).pos.x
        = (ViewPoint.mk ⟨0, 0, 0⟩ 90).pos.x ∧
    ((ViewPoint.mk ⟨0, 0, 0⟩ 90).update ⟨true, false, false, false, false, false⟩ 1).pos.y
        = (ViewPoint.mk ⟨0, 0, 0⟩ 90).pos.y := by
  have h := update_moves_axes_independently (ViewPoint.mk ⟨0, 0, 0⟩ 90)
    ⟨true, false, false, false, false, false⟩ 1 (by norm_num)
  exact ⟨by norm_num, h.2.2.1 rfl rfl, h.1.2.2 rfl, h.2.1.2.2 rfl⟩

/-- C5 counterexample: constructing a `ViewPoint` with initial fov 200
leaves the fov at 200, violating `fov ≤ 180` immediately after
construction. -/
theorem fov_unclamped_at_init_counterexample :
    ¬ ((ViewPoint.init ⟨0, 0, 0⟩ 200).fov ≤ 180) := by
  norm_num [ViewPoint.init]

/-- C5 (amended): construction stores the initial fov argument unclamped
(so the invariant holds after construction only when the argument already
lies in `[1, 180]`); after every nonempty sequence of `adj_fov` calls, with
scroll deltas of arbitrary sign and magnitude and arbitrary elapsed times,
the fov satisfies `1 ≤ fov ≤ 180`. -/
theorem fov_clamped_by_adj_fov (p : Vector3) (f0 : ℝ) (vp : ViewPoint)
    (calls : List (ℤ × ℝ)) (hne : calls ≠ []) :
    (ViewPoint.init p f0).fov = f0 ∧
    (1 ≤ (calls.foldl (fun v c => v.adj_fov c.1 c.2) vp).fov ∧
     (calls.foldl (fun v c => v.adj_fov c.1 c.2) vp).fov ≤ 180) :=
  ⟨rfl, foldl_adj_fov_mem calls vp hne⟩

/-- C5 witness: one `adj_fov` call with scroll 1 and dt 1 starting from the
program's initial viewpoint keeps the fov within `[1, 180]`. -/
theorem fov_clamped_by_adj_fov_witness :
    (ViewPoint.init ⟨0, 0, 0⟩ 90).fov = 90 ∧
    (1 ≤ (([((1 : ℤ), (1 : ℝ))]).foldl (fun v c => v.adj_fov c.1 c.2)
        (ViewPoint.init ⟨-10, 0, -10⟩ 90)).fov ∧
     (([((1 : ℤ), (1 : ℝ))]).foldl (fun v c => v.adj_fov c.1 c.2)
        (ViewPoint.init ⟨-10, 0, -10⟩ 90)).fov ≤ 180) :=
  fov_clamped_by_adj_fov ⟨0, 0, 0⟩ 90 (ViewPoint.init ⟨-10, 0, -10⟩ 90)
    [((1 : ℤ), (1 : ℝ))] (by simp)

/-- C4 (code bug): constructing a `Cube` with `side_length = -5` does NOT
fail: no validation is performed, the value is silently accepted, and the
construction returns the degenerate inverted vertex list. -/
theorem cube_accepts_nonpositive_side :
    Cube.init 0 ⟨0, 0, 0⟩ (-5) =
      .ok ⟨[⟨0, 0, 0⟩, ⟨0, 0, -5⟩, ⟨0, -5, 0⟩, ⟨0, -5, -5⟩,
            ⟨-5, 0, 0⟩, ⟨-5, 0, -5⟩, ⟨-5, -5, 0⟩, ⟨-5, -5, -5⟩], ⟨0, 0, 0⟩⟩ := by
  norm_num [Cube.init, Polygon.init, pyGet, cubeVertices, Except.map]

/-- C10: the `anchor` argument of `Polygon`/`Cube` construction is a vertex
index: for `0 ≤ a < 8` the constructed cube's `pos` is its `a`-th vertex in
the fixed enumeration order, which equals the `pos` argument exactly when
`a = 0`; and a `Polygon` whose anchor is outside the index range of its
vertex list (in particular any anchor on an empty list) fails with an
`IndexError`. -/
theorem anchor_is_vertex_index (a : ℤ) (pos : Vector3) (L : ℝ) (hL : 0 < L)
    (ha0 : 0 ≤ a) (ha8 : a < 8) (vs : List Vector3) (i : ℤ)
    (hi : i < -(vs.length : ℤ) ∨ (vs.length : ℤ) ≤ i) :
    (Cube.init a pos L =
        .ok ⟨cubeVertices pos L, (cubeVertices pos L).getD a.toNat ⟨0, 0, 0⟩⟩) ∧
    ((cubeVertices pos L).getD a.toNat ⟨0, 0, 0⟩ = pos ↔ a = 0) ∧
    Polygon.init vs i = .error .indexError := by
  have hL0 : L ≠ 0 := ne_of_gt hL
  obtain ⟨px, py, pz⟩ := pos
  have h1 : ¬ (0 ≤ i ∧ i < (vs.length : ℤ)) := by omega
  have h2 : ¬ (-(vs.length : ℤ) ≤ i ∧ i < 0) := by omega
  refine ⟨?_, ?_, ?_⟩
  · interval_cases a <;>
      norm_num [Cube.init, Polygon.init, pyGet, cubeVertices, Except.map]
  · interval_cases a <;>
      simp [cubeVertices, Vector3.mk.injEq, self_eq_add_right, add_right_eq_self,
        hL0]
  · simp [Polygon.init, pyGet, h1, h2, Except.map]

/-- C10 witness: a cube at the origin with side 10 and anchor index 1, and
a polygon on the empty vertex list with anchor 0. -/
theorem anchor_is_vertex_index_witness :
    (0 : ℝ) < 10 ∧ (0 : ℤ) ≤ 1 ∧ (1 : ℤ) < 8 ∧
    ((([] : List Vector3).length : ℤ) ≤ 0) ∧
    (Cube.init 1 ⟨0, 0, 0⟩ 10 =
        .ok ⟨cubeVertices ⟨0, 0, 0⟩ 10,
             (cubeVertices ⟨0, 0, 0⟩ 10).getD (1 : ℤ).toNat ⟨0, 0, 0⟩⟩) ∧
    ((cubeVertices ⟨0, 0, 0⟩ 10).getD (1 : ℤ).toNat ⟨0, 0, 0⟩ = ⟨0, 0, 0⟩ ↔
        (1 : ℤ) = 0) ∧
    Polygon.init [] 0 = .error .indexError := by
  have h := anchor_is_vertex_index 1 ⟨0, 0, 0⟩ 10 (by norm_num) (by norm_num)
    (by norm_num) [] 0 (Or.inr (by norm_num))
  exact ⟨by norm_num, by norm_num, by norm_num, by norm_num, h.1, h.2.1, h.2.2⟩

/-- For a nonzero depth offset and nonzero fov the projection raises no
exception and returns the half-fov angle-ratio point in pygame
coordinates. -/
theorem projectVertex_eq (v p : Vector3) (f W H : ℝ)
    (hdz : v.z - p.z ≠ 0) (hf : f ≠ 0) :
    projectVertex v p f W H = .ok (to_pygame_coords W H
      (degrees (Real.arctan ((v.x - p.x) / (v.z - p.z))) / (f / 2) * (W / 2))
      (degrees (Real.arctan ((v.y - p.y) / (v.z - p.z))) / (f / 2) * (H / 2))) := by
  have hf2 : f / 2 ≠ 0 := div_ne_zero hf two_ne_zero
  simp [projectVertex, pydiv, hdz, hf2]
  rfl

theorem degrees_zero : degrees 0 = 0 := by
  simp [degrees]

theorem degrees_pi_div_four : degrees (Real.pi / 4) = 45 := by
  rw [degrees]
  field_simp
  ring

theorem degrees_neg_pi_div_four : degrees (-(Real.pi / 4)) = -45 := by
  rw [degrees]
  field_simp
  ring

/-- C1 counterexample: at vertex `(1,0,1)`, viewpoint `(0,0,0)` (so
`dz = 1 ≠ 0`), fov 90 and a 1000×1000 screen, the code produces
`x = 1000` while the spec's full-fov formula gives `x = 750`. -/
theorem projection_full_fov_counterexample :
    projectVertex ⟨1, 0, 1⟩ ⟨0, 0, 0⟩ 90 1000 1000 ≠
      .ok (projectSpecFormula ⟨1, 0, 1⟩ ⟨0, 0, 0⟩ 90 1000 1000) := by
  have h1 : projectVertex ⟨1, 0, 1⟩ ⟨0, 0, 0⟩ 90 1000 1000 = .ok (1000, 500) := by
    rw [projectVertex_eq _ _ _ _ _ (by norm_num) (by norm_num)]
    norm_num [to_pygame_coords, degrees_pi_div_four, degrees_zero]
  have h2 : projectSpecFormula ⟨1, 0, 1⟩ ⟨0, 0, 0⟩ 90 1000 1000 = (750, 500) := by
    norm_num [projectSpecFormula, degrees_pi_div_four, degrees_zero]
  rw [h1, h2]
  norm_num

/-- C1 (amended): for every vertex and viewpoint position with `dz ≠ 0`,
fov in `[1, 180]` and screen size `W × H`, the produced screen point follows
the angle formula dividing by HALF the fov:
`screenX = (xAngleDeg / (f/2)) * (W/2) + W/2` and
`screenY = -(yAngleDeg / (f/2)) * (H/2) + H/2`. -/
theorem projection_divides_by_half_fov (v p : Vector3) (f W H : ℝ)
    (hdz : v.z - p.z ≠ 0) (hf1 : 1 ≤ f) (hf2 : f ≤ 180) :
    projectVertex v p f W H = .ok
      ((degrees (Real.arctan ((v.x - p.x) / (v.z - p.z))) / (f / 2)) * (W / 2) + W / 2,
       -(degrees (Real.arctan ((v.y - p.y) / (v.z - p.z))) / (f / 2)) * (H / 2) + H / 2) := by
  have hf : f ≠ 0 := by linarith
  rw [projectVertex_eq v p f W H hdz hf, to_pygame_coords]
  simp only [Except.ok.injEq, Prod.mk.injEq]
  refine ⟨trivial, ?_⟩
  ring

/-- C1 witness: the half-fov formula at vertex `(1,0,1)`, viewpoint
`(0,0,0)`, fov 90, screen 1000×1000. -/
theorem projection_divides_by_half_fov_witness :
    ((⟨1, 0, 1⟩ : Vector3).z - (⟨0, 0, 0⟩ : Vector3).z ≠ 0) ∧ (1 : ℝ) ≤ 90 ∧
    (90 : ℝ) ≤ 180 ∧
    projectVertex ⟨1, 0, 1⟩ ⟨0, 0, 0⟩ 90 1000 1000 = .ok
      ((degrees (Real.arctan (((⟨1, 0, 1⟩ : Vector3).x - (⟨0, 0, 0⟩ : Vector3).x) /
          ((⟨1, 0, 1⟩ : Vector3).z - (⟨0, 0, 0⟩ : Vector3).z))) / (90 / 2)) * (1000 / 2) +
          1000 / 2,
       -(degrees (Real.arctan (((⟨1, 0, 1⟩ : Vector3).y - (⟨0, 0, 0⟩ : Vector3).y) /
          ((⟨1, 0, 1⟩ : Vector3).z - (⟨0, 0, 0⟩ : Vector3).z))) / (90 / 2)) * (1000 / 2) +
          1000 / 2) :=
  ⟨by norm_num, by norm_num, by norm_num,
   projection_divides_by_half_fov ⟨1, 0, 1⟩ ⟨0, 0, 0⟩ 90 1000 1000 (by norm_num)
     (by norm_num) (by norm_num)⟩

/-- C9: jointly scaling the offsets `(dx, dy, dz)` from the viewpoint by any
`k > 0` (with `dz > 0`) leaves the projected screen point unchanged — the
projection depends only on the ratios `dx/dz` and `dy/dz`. -/
theorem projection_scale_invariant (p : Vector3) (dx dy dz f W H k : ℝ)
    (hdz : 0 < dz) (hk : 0 < k) :
    projectVertex ⟨p.x + k * dx, p.y + k * dy, p.z + k * dz⟩ p f W H =
      projectVertex ⟨p.x + dx, p.y + dy, p.z + dz⟩ p f W H := by
  have hkdz : k * dz ≠ 0 := (mul_pos hk hdz).ne'
  have hdz0 : dz ≠ 0 := hdz.ne'
  have e1 : pydiv (k * dx) (k * dz) = pydiv dx dz := by
    simp [pydiv, hkdz, hdz0, mul_div_mul_left _ _ hk.ne']
  have e2 : pydiv (k * dy) (k * dz) = pydiv dy dz := by
    simp [pydiv, hkdz, hdz0, mul_div_mul_left _ _ hk.ne']
  simp only [projectVertex,
    show p.x + k * dx - p.x = k * dx from by ring,
    show p.y + k * dy - p.y = k * dy from by ring,
    show p.z + k * dz - p.z = k * dz from by ring,
    show p.x + dx - p.x = dx from by ring,
    show p.y + dy - p.y = dy from by ring,
    show p.z + dz - p.z = dz from by ring, e1, e2]

/-- C9 witness: doubling the offsets `(1, 0, 1)` from the origin viewpoint
leaves the screen point unchanged. -/
theorem projection_scale_invariant_witness :
    (0 : ℝ) < 1 ∧ (0 : ℝ) < 2 ∧
    projectVertex ⟨(0 : ℝ) + 2 * 1, (0 : ℝ) + 2 * 0, (0 : ℝ) + 2 * 1⟩ ⟨0, 0, 0⟩
        90 1000 1000 =
      projectVertex ⟨(0 : ℝ) + 1, (0 : ℝ) + 0, (0 : ℝ) + 1⟩ ⟨0, 0, 0⟩ 90 1000 1000 :=
  ⟨by norm_num, by norm_num,
   projection_scale_invariant ⟨0, 0, 0⟩ 1 0 1 90 1000 1000 2 (by norm_num) (by norm_num)⟩

/-- C3 (code bug): at `dz = 0` the projection raises `ZeroDivisionError`
from `x_diff / z_diff`, which nothing in the program handles — there is no
recoverable `ProjectionDegenerate` signal. -/
theorem projection_dz_zero_raises :
    projectVertex ⟨0, 0, 5⟩ ⟨0, 0, 5⟩ 90 1000 1000 = .error .zeroDivisionError := by
  norm_num [projectVertex, pydiv]
  rfl

/-- C2 (code bug): rendering two single-vertex polygons draws the line
segment between their projections — a segment whose endpoints are
projections of vertices belonging to DIFFERENT polygons. The renderer keeps
one shared coordinate list across polygons and has no per-polygon edge
list. -/
theorem render_connects_across_polygons :
    render [⟨[⟨0, 0, 10⟩], ⟨0, 0, 10⟩⟩, ⟨[⟨10, 0, 10⟩], ⟨10, 0, 10⟩⟩]
        ⟨⟨0, 0, 0⟩, 90⟩ 1000 1000 =
      .ok [((500, 500), (1000, 500))] := by
  have h1 : projectVertex ⟨0, 0, 10⟩ ⟨0, 0, 0⟩ 90 1000 1000 = .ok (500, 500) := by
    rw [projectVertex_eq _ _ _ _ _ (by norm_num) (by norm_num)]
    norm_num [to_pygame_coords, Real.arctan_zero, degrees_zero]
  have h2 : projectVertex ⟨10, 0, 10⟩ ⟨0, 0, 0⟩ 90 1000 1000 = .ok (1000, 500) := by
    rw [projectVertex_eq _ _ _ _ _ (by norm_num) (by norm_num)]
    norm_num [to_pygame_coords, Real.arctan_one, Real.arctan_zero,
      degrees_pi_div_four, degrees_zero]
  simp [render, renderLoop, h1, h2, consecSegments]

/-- C6 (code bug): a vertex behind the viewpoint (`dz = -10 < 0`) is
projected with mirrored coordinates (screen x = 0 although the vertex lies
to the right, dx = +10) and the edge incident to it is drawn, not
skipped; the projection exposes no behind-viewpoint signal to the
renderer. -/
theorem render_draws_behind_viewpoint :
    render [⟨[⟨0, 0, 20⟩, ⟨10, 0, 0⟩], ⟨0, 0, 20⟩⟩] ⟨⟨0, 0, 10⟩, 90⟩ 1000 1000 =
      .ok [((500, 500), (0, 500))] := by
  have h1 : projectVertex ⟨0, 0, 20⟩ ⟨0, 0, 10⟩ 90 1000 1000 = .ok (500, 500) := by
    rw [projectVertex_eq _ _ _ _ _ (by norm_num) (by norm_num)]
    norm_num [to_pygame_coords, Real.arctan_zero, degrees_zero]
  have h2 : projectVertex ⟨10, 0, 0⟩ ⟨0, 0, 10⟩ 90 1000 1000 = .ok (0, 500) := by
    rw [projectVertex_eq _ _ _ _ _ (by norm_num) (by norm_num)]
    norm_num [to_pygame_coords, Real.arctan_neg, Real.arctan_one,
      Real.arctan_zero, degrees_neg_pi_div_four, degrees_zero]
  simp [render, renderLoop, h1, h2, consecSegments]

end Renderer3D
